import Mathlib

/-!
Verification development for the KubeSecurityScanner repository.

Shallow embedding of the Python sources `scanner.py`, `cis_checker.py` and
`models.py`.  Kubernetes API objects are modelled as Lean structures whose
optional attributes are `Option` values (Python `None` = `none`); the
fallible cluster list calls are modelled as `Except` inputs supplied with
the cluster snapshot.  Each Python function that the claims mention is
translated into a Lean definition of the same name.
-/

namespace KubeScan

/-! ## Data model (kubernetes client objects, as the scanner accesses them) -/

/-- `V1Capabilities`: the `add` and `drop` attributes can each be `None`
or a list of capability names. -/
structure Capabilities where
  add : Option (List String)
  drop : Option (List String)
  deriving Repr, DecidableEq

/-- `V1SecurityContext` / `V1PodSecurityContext`, restricted to the five
attributes the embedded checkers read (`run_as_user`, `run_as_non_root`,
`privileged`, `allow_privilege_escalation`, `capabilities`); every
attribute may be unset (`None`). -/
structure SecurityContext where
  run_as_user : Option Int
  run_as_non_root : Option Bool
  privileged : Option Bool
  allow_privilege_escalation : Option Bool
  capabilities : Option Capabilities
  deriving Repr, DecidableEq

/-- A security context with every attribute unset. -/
def emptySC : SecurityContext :=
  { run_as_user := none, run_as_non_root := none, privileged := none,
    allow_privilege_escalation := none, capabilities := none }

/-- `V1Container`: name, image reference and optional security context. -/
structure ContainerData where
  name : String
  image : String
  security_context : Option SecurityContext
  deriving Repr, DecidableEq

/-- `V1PodSpec`: the `containers` and `init_containers` attributes may be
`None` or a list; the pod-level security context is optional. -/
structure PodSpecData where
  containers : Option (List ContainerData)
  init_containers : Option (List ContainerData)
  security_context : Option SecurityContext
  deriving Repr, DecidableEq

/-- `V1Pod`: metadata name plus spec.  `spec = none` models a pod object
whose `spec` attribute is `None`, in which case the walker's access
`pod.spec.containers` raises (an unexpected, non-API exception). -/
structure PodData where
  name : String
  spec : Option PodSpecData
  deriving Repr, DecidableEq

/-- Outcome class of a kubernetes API list call that raises
`ApiException`: status 403 (permission denied) or any other status. -/
inductive ApiError where
  | permissionDenied
  | otherStatus
  deriving Repr, DecidableEq

/-- Error raised out of a namespace walk: a re-raised `ApiException`, or
any other exception (e.g. attribute access on a `None` spec). -/
inductive ScanError where
  | api (e : ApiError)
  | unexpected
  deriving Repr, DecidableEq

/-- Decidable equality for `Except`, needed so concrete scan outcomes can
be compared by `decide`. -/
instance {ε α : Type} [DecidableEq ε] [DecidableEq α] : DecidableEq (Except ε α) :=
  fun a b =>
    match a, b with
    | .ok x, .ok y =>
        if h : x = y then .isTrue (by rw [h]) else .isFalse (by simp [h])
    | .error x, .error y =>
        if h : x = y then .isTrue (by rw [h]) else .isFalse (by simp [h])
    | .ok _, .error _ => .isFalse (by simp)
    | .error _, .ok _ => .isFalse (by simp)

/-- One namespace of the cluster snapshot: its name together with the
outcome of `list_namespaced_pod` on it. -/
structure NamespaceData where
  name : String
  pods : Except ApiError (List PodData)
  deriving Repr, DecidableEq

/-- The cluster snapshot seen by one scan: the outcome of
`list_namespace` (either an API failure or the namespace list). -/
structure ClusterData where
  namespaces : Except ApiError (List NamespaceData)
  deriving Repr, DecidableEq

/-! ## Report models (`models.py`) -/

/-- `LatestTagContainer` (models.py). -/
structure LatestTagContainer where
  ns : String
  pod : String
  container : String
  image : String
  deriving Repr, DecidableEq

/-- `RootContainer` (models.py). -/
structure RootContainer where
  ns : String
  pod : String
  container : String
  reason : String
  user_id : Option Int
  run_as_non_root : Option Bool
  deriving Repr, DecidableEq

/-- `CISViolation` (models.py). -/
structure CISViolation where
  ns : String
  pod : String
  container : String
  control_id : String
  control_title : String
  severity : String
  description : String
  remediation : String
  level : String
  deriving Repr, DecidableEq

/-- `NetworkPolicyViolation` (models.py). -/
structure NetworkPolicyViolation where
  ns : String
  control_id : String
  control_title : String
  severity : String
  description : String
  remediation : String
  deriving Repr, DecidableEq

/-- `ServiceAccountViolation` (models.py). -/
structure ServiceAccountViolation where
  ns : String
  service_account : String
  control_id : String
  control_title : String
  severity : String
  description : String
  remediation : String
  deriving Repr, DecidableEq

/-- The summary dict built by `scan_cluster` (scanner.py lines 56-61):
exactly the four keys it populates. -/
structure ScanSummary where
  namespacesScanned : Nat
  latestTagIssues : Nat
  rootUserIssues : Nat
  totalIssues : Nat
  deriving Repr, DecidableEq

/-- `ScanResponse` (models.py): five violation collections plus summary.
Collections not passed by the constructor call default to `[]`
(pydantic `default_factory=list`). -/
structure ScanResponse where
  latestTagContainers : List LatestTagContainer
  rootContainers : List RootContainer
  cisViolations : List CISViolation
  networkPolicyViolations : List NetworkPolicyViolation
  serviceAccountViolations : List ServiceAccountViolation
  summary : ScanSummary
  deriving Repr, DecidableEq

/-! ## `scanner.py`: latest-tag check -/

/-- `_check_latest_tag` (scanner.py lines 156-183).  Mirrors the Python
string operations: `image.endswith(":latest")`, `":" in image`,
`image.count(":")` and `"/" in image.split(":")[0]` (the part of the
string before the first colon). -/
def _check_latest_tag (ns pod_name container_name image : String) :
    Option LatestTagContainer :=
  if image = "" then none
  else if ":latest".data.isSuffixOf image.data then
    some { ns := ns, pod := pod_name, container := container_name, image := image }
  else if (!(image.data.contains ':')) ||
          (image.data.count ':' == 1 &&
           ((image.data.takeWhile (fun c => c ≠ ':')).contains '/')) then
    some { ns := ns, pod := pod_name, container := container_name,
           image := image ++ ":latest" }
  else none

/-! ## `scanner.py`: root-user check -/

/-- One scope block of `_check_root_user` (the container block, lines
193-220, and the pod block, lines 223-250, are identical up to the word
used in the reason strings).  Result `some r` means the Python function
returns `r` from inside this block; `none` means control falls through
to the next block. -/
def rootScopeCheck (ns pod_name container_name scopeWord : String)
    (sc : SecurityContext) : Option (Option RootContainer) :=
  match sc.run_as_user with
  | some u =>
      if u = 0 then
        some (some { ns := ns, pod := pod_name, container := container_name,
                     reason := scopeWord ++ " runAsUser=0",
                     user_id := some 0,
                     run_as_non_root := sc.run_as_non_root })
      else
        some none
  | none =>
      if sc.run_as_non_root = some false then
        some (some { ns := ns, pod := pod_name, container := container_name,
                     reason := scopeWord ++ " runAsNonRoot=false",
                     user_id := sc.run_as_user,
                     run_as_non_root := some false })
      else none

/-- `_check_root_user` (scanner.py lines 185-293): container security
context block first, then pod block, then the two absence defaults. -/
def _check_root_user (ns pod_name container_name : String)
    (container_security_context pod_security_context : Option SecurityContext) :
    Option RootContainer :=
  let containerBlock :=
    match container_security_context with
    | some c => rootScopeCheck ns pod_name container_name "Container" c
    | none => none
  match containerBlock with
  | some r => r
  | none =>
    let podBlock :=
      match pod_security_context with
      | some p => rootScopeCheck ns pod_name container_name "Pod" p
      | none => none
    match podBlock with
    | some r => r
    | none =>
      match container_security_context, pod_security_context with
      | none, none =>
          some { ns := ns, pod := pod_name, container := container_name,
                 reason := "No security context defined (defaults to root)",
                 user_id := none, run_as_non_root := none }
      | _, _ =>
        let hasUserFromContainer :=
          match container_security_context with
          | some c => c.run_as_user.isSome || c.run_as_non_root.isSome
          | none => false
        let has_user_setting :=
          if hasUserFromContainer then true
          else
            match pod_security_context with
            | some p => p.run_as_user.isSome || p.run_as_non_root.isSome
            | none => false
        if !has_user_setting then
          some { ns := ns, pod := pod_name, container := container_name,
                 reason := "Security context exists but no user settings (defaults to root)",
                 user_id := none, run_as_non_root := none }
        else none

/-! ## `scanner.py`: namespace walk and cluster scan -/

/-- The per-container body of the pod loop in `_scan_namespace`
(scanner.py lines 111-125 for regular containers, 129-143 for init
containers, where the container name gets an `"init-"` marker): run the
latest-tag check and the root-user check, appending any findings. -/
def processContainers (ns pod_name : String) (isInit : Bool)
    (pod_sc : Option SecurityContext) (cs : List ContainerData)
    (acc : List LatestTagContainer × List RootContainer) :
    List LatestTagContainer × List RootContainer :=
  cs.foldl
    (fun acc c =>
      let cname := if isInit then "init-" ++ c.name else c.name
      let acc1 :=
        match _check_latest_tag ns pod_name cname c.image with
        | some v => acc.1 ++ [v]
        | none => acc.1
      let acc2 :=
        match _check_root_user ns pod_name cname c.security_context pod_sc with
        | some v => acc.2 ++ [v]
        | none => acc.2
      (acc1, acc2))
    acc

/-- One pod of the loop in `_scan_namespace` (scanner.py lines 106-143).
`pod.spec.containers` on a pod with `spec = None` raises an attribute
error, which is not an `ApiException` and propagates out of the walk. -/
def processPod (ns : String) (pod : PodData)
    (acc : List LatestTagContainer × List RootContainer) :
    Except ScanError (List LatestTagContainer × List RootContainer) :=
  match pod.spec with
  | none => .error .unexpected
  | some spec =>
      let acc := processContainers ns pod.name false spec.security_context
        (spec.containers.getD []) acc
      let acc := processContainers ns pod.name true spec.security_context
        (spec.init_containers.getD []) acc
      .ok acc

/-- The pod loop of `_scan_namespace`: pods processed in order; an
exception thrown while processing any pod unwinds the whole walk, so the
locally accumulated lists are lost. -/
def scanPods (ns : String) :
    List PodData → (List LatestTagContainer × List RootContainer) →
    Except ScanError (List LatestTagContainer × List RootContainer)
  | [], acc => .ok acc
  | pod :: rest, acc =>
      match processPod ns pod acc with
      | .error e => .error e
      | .ok acc => scanPods ns rest acc

/-- `_scan_namespace` (scanner.py lines 90-154): list the pods of the
namespace (an `ApiException` there is logged and re-raised), then walk
them accumulating latest-tag and root-user findings. -/
def _scan_namespace (nsd : NamespaceData) :
    Except ScanError (List LatestTagContainer × List RootContainer) :=
  match nsd.pods with
  | .error e => .error (.api e)
  | .ok pods => scanPods nsd.name pods ([], [])

/-- The per-namespace step of the loop in `scan_cluster` (scanner.py
lines 42-53): on success extend the accumulated lists; every exception
(`ApiException` with status 403, any other `ApiException`, or any other
exception) is caught, logged and dropped, and the loop continues. -/
def scanStep (acc : List LatestTagContainer × List RootContainer)
    (nsd : NamespaceData) : List LatestTagContainer × List RootContainer :=
  match _scan_namespace nsd with
  | .ok res => (acc.1 ++ res.1, acc.2 ++ res.2)
  | .error _ => acc

/-- The `ScanResponse` that `scan_cluster` builds from a successfully
listed collection of namespaces (scanner.py lines 42-69): the summary
counts `len(namespaces)` as `namespacesScanned`, and the constructor
call passes only the two scanner collections, so the three CIS-related
collections take their pydantic defaults `[]`. -/
def buildReport (nss : List NamespaceData) : ScanResponse :=
  let res := nss.foldl scanStep ([], [])
  { latestTagContainers := res.1,
    rootContainers := res.2,
    cisViolations := [],
    networkPolicyViolations := [],
    serviceAccountViolations := [],
    summary :=
      { namespacesScanned := nss.length,
        latestTagIssues := res.1.length,
        rootUserIssues := res.2.length,
        totalIssues := res.1.length + res.2.length } }

/-- `scan_cluster` (scanner.py lines 27-73): a failure of the initial
`list_namespace` call propagates to the caller; otherwise every
namespace is attempted and a report is always returned. -/
def scan_cluster (cd : ClusterData) : Except ScanError ScanResponse :=
  match cd.namespaces with
  | .error e => .error (.api e)
  | .ok nss => .ok (buildReport nss)

/-! ## `cis_checker.py`: per-container CIS evaluators

The four embedded evaluators access their `container_spec` argument only
through `container_spec.security_context` and their `pod_spec` argument
only through `pod_spec.security_context`, exactly as the Python code
does (the `hasattr` guards are always true on the kubernetes client
objects; only the `None`-ness of the values matters). -/

/-- The container-then-pod resolution block for the `capabilities`
attribute, repeated verbatim in `_check_net_raw_capability` (lines
250-261), `_check_added_capabilities` (lines 287-298) and
`_check_capabilities_not_dropped` (lines 321-332): take the container
security context's `capabilities` if that is not `None`, otherwise the
pod security context's. -/
def resolveCapabilities (container_sc pod_sc : Option SecurityContext) :
    Option Capabilities :=
  let fromContainer :=
    match container_sc with
    | some sc => sc.capabilities
    | none => none
  match fromContainer with
  | some caps => some caps
  | none =>
      match pod_sc with
      | some sc => sc.capabilities
      | none => none

/-- The identical resolution block for `allow_privilege_escalation` in
`_check_privilege_escalation` (cis_checker.py lines 214-226). -/
def resolveAllowPrivilegeEscalation (container_sc pod_sc : Option SecurityContext) :
    Option Bool :=
  let fromContainer :=
    match container_sc with
    | some sc => sc.allow_privilege_escalation
    | none => none
  match fromContainer with
  | some b => some b
  | none =>
      match pod_sc with
      | some sc => sc.allow_privilege_escalation
      | none => none

/-- `_check_privileged_containers` (cis_checker.py lines 117-139):
fires when the container security context exists and its `privileged`
attribute is truthy. -/
def _check_privileged_containers (ns pod_name container_name : String)
    (container_spec : ContainerData) : List CISViolation :=
  match container_spec.security_context with
  | some sc =>
      match sc.privileged with
      | some true =>
          [{ ns := ns, pod := pod_name, container := container_name,
             control_id := "5.2.1",
             control_title := "Minimize the admission of privileged containers",
             severity := "Critical",
             description := "Container is running in privileged mode, which grants access to all host devices and bypasses security mechanisms",
             remediation := "Remove 'privileged: true' from container security context. Run containers with minimal privileges required.",
             level := "L1" }]
      | _ => []
  | none => []

/-- `_check_privilege_escalation` (cis_checker.py lines 209-242): resolve
`allow_privilege_escalation` container-then-pod; if the resolved value is
`None` or truthy, emit the 5.2.5 violation. -/
def _check_privilege_escalation (ns pod_name container_name : String)
    (container_spec : ContainerData) (pod_spec : PodSpecData) : List CISViolation :=
  let allow_privilege_escalation :=
    resolveAllowPrivilegeEscalation container_spec.security_context pod_spec.security_context
  match allow_privilege_escalation with
  | some false => []
  | _ =>
      [{ ns := ns, pod := pod_name, container := container_name,
         control_id := "5.2.5",
         control_title := "Minimize the admission of containers with allowPrivilegeEscalation",
         severity := "High",
         description := "Container allows privilege escalation, which can be used to gain additional privileges",
         remediation := "Set 'allowPrivilegeEscalation: false' in container security context.",
         level := "L1" }]

/-- `_check_net_raw_capability` (cis_checker.py lines 244-279): resolve
`capabilities` container-then-pod; fire when the resolved object exists,
its `add` list is truthy (present and non-empty) and contains
`"NET_RAW"`. -/
def _check_net_raw_capability (ns pod_name container_name : String)
    (container_spec : ContainerData) (pod_spec : PodSpecData) : List CISViolation :=
  match resolveCapabilities container_spec.security_context pod_spec.security_context with
  | none => []
  | some capabilities =>
      match capabilities.add with
      | none => []
      | some addList =>
          if addList ≠ [] ∧ addList.contains "NET_RAW" then
            [{ ns := ns, pod := pod_name, container := container_name,
               control_id := "5.2.7",
               control_title := "Minimize the admission of containers with the NET_RAW capability",
               severity := "Medium",
               description := "Container has NET_RAW capability, which allows raw socket access and network packet manipulation",
               remediation := "Remove NET_RAW from added capabilities unless specifically required for network operations.",
               level := "L1" }]
          else []

/-- `_check_added_capabilities` (cis_checker.py lines 281-313): resolve
`capabilities` container-then-pod; fire when the resolved object exists
and its `add` list is truthy (present and non-empty). -/
def _check_added_capabilities (ns pod_name container_name : String)
    (container_spec : ContainerData) (pod_spec : PodSpecData) : List CISViolation :=
  match resolveCapabilities container_spec.security_context pod_spec.security_context with
  | none => []
  | some capabilities =>
      match capabilities.add with
      | none => []
      | some addList =>
          if addList ≠ [] then
            [{ ns := ns, pod := pod_name, container := container_name,
               control_id := "5.2.8",
               control_title := "Minimize the admission of containers with added capabilities",
               severity := "Medium",
               description := "Container has added capabilities: " ++ String.intercalate ", " addList,
               remediation := "Remove unnecessary capabilities from the container. Use principle of least privilege.",
               level := "L1" }]
          else []

/-- The 5.2.9 Medium/L1 violation emitted by
`_check_capabilities_not_dropped` when no capabilities are dropped. -/
def capsNotDroppedMediumViolation (ns pod_name container_name : String) : CISViolation :=
  { ns := ns, pod := pod_name, container := container_name,
    control_id := "5.2.9",
    control_title := "Minimize the admission of containers with capabilities assigned",
    severity := "Medium",
    description := "Container does not drop all capabilities. Default capabilities may be unnecessary.",
    remediation := "Add 'drop: [\"ALL\"]' to container capabilities and only add back required capabilities.",
    level := "L1" }

/-- The 5.2.9 Low/L2 violation emitted by
`_check_capabilities_not_dropped` when `drop` does not contain ALL. -/
def capsNotDroppedLowViolation (ns pod_name container_name : String) : CISViolation :=
  { ns := ns, pod := pod_name, container := container_name,
    control_id := "5.2.9",
    control_title := "Minimize the admission of containers with capabilities assigned",
    severity := "Low",
    description := "Container does not drop ALL capabilities, which may leave unnecessary privileges",
    remediation := "Consider dropping ALL capabilities first, then adding only required ones.",
    level := "L2" }

/-- `_check_capabilities_not_dropped` (cis_checker.py lines 315-360):
resolve `capabilities` container-then-pod; if the resolved object is
`None` or its `drop` list is `None` or empty, emit Medium/L1; else if
`drop` does not contain `"ALL"`, emit Low/L2; else nothing. -/
def _check_capabilities_not_dropped (ns pod_name container_name : String)
    (container_spec : ContainerData) (pod_spec : PodSpecData) : List CISViolation :=
  match resolveCapabilities container_spec.security_context pod_spec.security_context with
  | none => [capsNotDroppedMediumViolation ns pod_name container_name]
  | some capabilities =>
      match capabilities.drop with
      | none => [capsNotDroppedMediumViolation ns pod_name container_name]
      | some dropList =>
          if dropList = [] then
            [capsNotDroppedMediumViolation ns pod_name container_name]
          else if !(dropList.contains "ALL") then
            [capsNotDroppedLowViolation ns pod_name container_name]
          else []

/-! ## Definitions modelled from the spec's words (for comparison only) -/

/-- Modelled from the spec: "only a colon appearing after the last slash
denotes a tag".  True when the last path segment of the image reference
(the part after the final slash, or the whole string if it has no slash)
contains a colon. -/
def specImageHasTag (image : String) : Bool :=
  ((image.data.reverse.takeWhile (fun c => c ≠ '/')).reverse).contains ':'

/-- Modelled from the spec: the latest-tag evaluator "flags an image
reference if it ends with literal \":latest\", OR if it contains no
colon-delimited tag at all", for non-empty references. -/
def specLatestTagFlags (image : String) : Bool :=
  image ≠ "" && (":latest".data.isSuffixOf image.data || !(specImageHasTag image))

/-- Modelled from the claim (C3): the six-step root-user procedure read
with container-then-pod RESOLVED settings — the resolved `runAsUser` is
the container-level value if present, otherwise the pod-level value, and
likewise for `runAsNonRoot`.  Returns the reason category of the
predicted violation, or `none` for no violation. -/
def rootUserResolvedSpec (container_sc pod_sc : Option SecurityContext) :
    Option String :=
  let rau :=
    match container_sc.bind SecurityContext.run_as_user with
    | some u => some u
    | none => pod_sc.bind SecurityContext.run_as_user
  let ranr :=
    match container_sc.bind SecurityContext.run_as_non_root with
    | some b => some b
    | none => pod_sc.bind SecurityContext.run_as_non_root
  match rau with
  | some u =>
      if u = 0 then some "runAsUser=0" else none
  | none =>
      if ranr = some false then some "runAsNonRoot=false"
      else
        match container_sc, pod_sc with
        | none, none => some "no security context (defaults to root)"
        | _, _ =>
            if ranr = none then
              some "security context exists but no user settings (defaults to root)"
            else none

/-- Modelled from the amended claim (C3): the evaluator inspects the
container security context in full — its own `runAsUser`, then its own
`runAsNonRoot` — before looking at the pod security context at all, then
repeats the same two steps on the pod context, then applies the two
absence defaults.  Flat formulation on the four extracted settings. -/
def rootUserSequentialSpec (container_sc pod_sc : Option SecurityContext) :
    Option String :=
  let cRau := container_sc.bind SecurityContext.run_as_user
  let cRanr := container_sc.bind SecurityContext.run_as_non_root
  let pRau := pod_sc.bind SecurityContext.run_as_user
  let pRanr := pod_sc.bind SecurityContext.run_as_non_root
  match cRau with
  | some u => if u = 0 then some "Container runAsUser=0" else none
  | none =>
    if cRanr = some false then some "Container runAsNonRoot=false"
    else
      match pRau with
      | some u => if u = 0 then some "Pod runAsUser=0" else none
      | none =>
        if pRanr = some false then some "Pod runAsNonRoot=false"
        else
          match container_sc, pod_sc with
          | none, none => some "No security context defined (defaults to root)"
          | _, _ =>
              if cRau = none ∧ cRanr = none ∧ pRau = none ∧ pRanr = none then
                some "Security context exists but no user settings (defaults to root)"
              else none

/-- The resolved `drop` list of the claims: the `drop` attribute of the
container-then-pod resolved capabilities object, when both exist. -/
def resolvedDrop (container_sc pod_sc : Option SecurityContext) :
    Option (List String) :=
  (resolveCapabilities container_sc pod_sc).bind Capabilities.drop

/-! ## Concrete example inputs used by the theorems below -/

/-- A container running with `privileged: true`. -/
def exPrivilegedContainer : ContainerData :=
  { name := "app", image := "nginx:1.0",
    security_context := some { emptySC with privileged := some true } }

/-- A cluster with one namespace holding one pod with one privileged
container. -/
def exPrivilegedCluster : ClusterData :=
  { namespaces := .ok
      [{ name := "default",
         pods := .ok
           [{ name := "pod1",
              spec := some { containers := some [exPrivilegedContainer],
                             init_containers := none,
                             security_context := none } }] }] }

/-- Container security context that sets only `runAsNonRoot: false`. -/
def exRanrFalseSC : SecurityContext := { emptySC with run_as_non_root := some false }

/-- Pod security context that sets only `runAsUser: 1000`. -/
def exRau1000SC : SecurityContext := { emptySC with run_as_user := some 1000 }

/-- A namespace whose pod listing succeeds with no pods. -/
def nsScannedOk : NamespaceData := { name := "open", pods := .ok [] }

/-- A namespace whose pod listing fails with permission denied. -/
def nsDenied : NamespaceData := { name := "denied", pods := .error .permissionDenied }

/-- A pod with one container whose image has no tag and no security
context: it yields one latest-tag finding and one root-user finding. -/
def goodPod : PodData :=
  { name := "good",
    spec := some { containers := some
                     [{ name := "web", image := "nginx", security_context := none }],
                   init_containers := none,
                   security_context := none } }

/-- A pod whose `spec` attribute is `None`: touching
`pod.spec.containers` raises during the walk. -/
def badPod : PodData := { name := "bad", spec := none }

/-- A namespace where a good pod is walked first and then a bad pod
raises, so the walk fails after results were already gathered. -/
def nsPartial : NamespaceData := { name := "p", pods := .ok [goodPod, badPod] }

/-- A container with no security context at all. -/
def exContainerNoSC : ContainerData :=
  { name := "app", image := "img:1", security_context := none }

/-- A pod spec with no security context and no containers listed. -/
def exPodSpecNoSC : PodSpecData :=
  { containers := none, init_containers := none, security_context := none }

/-- A container whose security context adds the NET_RAW capability. -/
def exNetRawContainer : ContainerData :=
  { name := "app", image := "img:1",
    security_context := some
      { emptySC with capabilities := some { add := some ["NET_RAW"], drop := none } } }

/-- A cluster with one namespace and one pod producing findings. -/
def exOneFindingCluster : ClusterData :=
  { namespaces := .ok [{ name := "default", pods := .ok [goodPod] }] }

/-! ## Theorems for the claims -/

/-- Claim C1 (code bug): the namespace walker never invokes the CIS,
network-policy or service-account evaluators — a scan of a cluster whose
only container is privileged returns a report with all three CIS-related
collections empty, although the privileged-containers evaluator fires on
that container. -/
theorem scan_report_omits_cis_evaluators :
    ((scan_cluster exPrivilegedCluster).map
       (fun r => (r.cisViolations, r.networkPolicyViolations, r.serviceAccountViolations))
      = .ok ([], [], []))
    ∧ (_check_privileged_containers "default" "pod1" "app" exPrivilegedContainer).length = 1 :=
  ⟨rfl, rfl⟩

/-- Claim C2 (code bug): the latest-tag evaluator does NOT flag
`"myrepo.com:5000/nginx"` (its heuristic looks for a slash before the
first colon, not for a colon after the last slash), although the
spec's tag grammar marks that reference as untagged and to be flagged;
the other three spec examples behave as claimed. -/
theorem latest_tag_port_registry_not_flagged :
    specLatestTagFlags "myrepo.com:5000/nginx" = true
    ∧ _check_latest_tag "ns1" "pod1" "c1" "myrepo.com:5000/nginx" = none
    ∧ _check_latest_tag "ns1" "pod1" "c1" "nginx"
        = some { ns := "ns1", pod := "pod1", container := "c1", image := "nginx:latest" }
    ∧ _check_latest_tag "ns1" "pod1" "c1" "nginx:latest"
        = some { ns := "ns1", pod := "pod1", container := "c1", image := "nginx:latest" }
    ∧ _check_latest_tag "ns1" "pod1" "c1" "myrepo.com:5000/nginx:1.2" = none :=
  ⟨rfl, rfl, rfl, rfl, rfl⟩

/-- Claim C3 counterexample: the root-user evaluator does not follow the
six-step procedure on RESOLVED settings.  With a container context
setting only `runAsNonRoot: false` and a pod context setting
`runAsUser: 1000`, the resolved `runAsUser` is present and non-zero, so
the claimed procedure stops with no violation — but the code reports
`Container runAsNonRoot=false`, because it exhausts the container
context before consulting the pod context. -/
theorem root_user_resolved_procedure_counterexample :
    rootUserResolvedSpec (some exRanrFalseSC) (some exRau1000SC) = none
    ∧ (_check_root_user "ns1" "pod1" "c1" (some exRanrFalseSC) (some exRau1000SC)).map
        (fun v => v.reason) = some "Container runAsNonRoot=false" :=
  ⟨rfl, rfl⟩

/-- Claim C3 as amended: the root-user evaluator inspects the container
security context in full (its `runAsUser`, then its `runAsNonRoot`)
before the pod context, then the pod context the same way, then the two
absence defaults — for every input it returns exactly the violation
predicted by that sequential procedure. -/
theorem root_user_sequential_procedure (ns p c : String)
    (csc psc : Option SecurityContext) :
    (_check_root_user ns p c csc psc).map (fun v => v.reason)
      = rootUserSequentialSpec csc psc := by
  rcases csc with _ | ⟨cu, cn, cp, ca, cc⟩
  · rcases psc with _ | ⟨pu, pn, pp, pa, pc⟩
    · rfl
    · rcases pu with _ | u
      · rcases pn with _ | b
        · rfl
        · cases b <;> rfl
      · by_cases h : u = 0 <;>
          simp [_check_root_user, rootScopeCheck, rootUserSequentialSpec, h]
  · rcases cu with _ | u
    · rcases cn with _ | b
      · rcases psc with _ | ⟨pu, pn, pp, pa, pc⟩
        · rfl
        · rcases pu with _ | u
          · rcases pn with _ | b
            · rfl
            · cases b <;> rfl
          · by_cases h : u = 0 <;>
              simp [_check_root_user, rootScopeCheck, rootUserSequentialSpec, h]
      · cases b
        · rfl
        · rcases psc with _ | ⟨pu, pn, pp, pa, pc⟩
          · rfl
          · rcases pu with _ | u
            · rcases pn with _ | b2
              · rfl
              · cases b2 <;> rfl
            · by_cases h : u = 0 <;>
                simp [_check_root_user, rootScopeCheck, rootUserSequentialSpec, h]
    · by_cases h : u = 0 <;>
        simp [_check_root_user, rootScopeCheck, rootUserSequentialSpec, h]

/-- Claim C4 counterexample: with one scannable namespace and one
namespace whose pod listing is permission-denied, the returned summary
counts `namespacesScanned = 2` — the full listed count — although only
one namespace was actually walked successfully. -/
theorem namespaces_scanned_counts_failed_namespaces :
    ((scan_cluster { namespaces := .ok [nsScannedOk, nsDenied] }).map
       (fun r => r.summary.namespacesScanned) = .ok 2)
    ∧ _scan_namespace nsDenied = .error (.api .permissionDenied)
    ∧ (List.filter (fun n => (_scan_namespace n).isOk) [nsScannedOk, nsDenied]).length = 1 :=
  ⟨rfl, rfl, rfl⟩

/-- Claim C4 as amended: when namespaces are skipped or fail during the
walk the scan still returns a report, but the summary's
`namespacesScanned` is the number of namespaces LISTED, failed and
skipped ones included. -/
theorem scan_reports_all_listed_namespaces (nss : List NamespaceData) :
    scan_cluster { namespaces := .ok nss } = .ok (buildReport nss)
    ∧ (buildReport nss).summary.namespacesScanned = nss.length :=
  ⟨rfl, rfl⟩

/-- Claim C5 counterexample: a namespace whose walk fails midway (a good
pod walked first, then a pod whose `spec` access raises) contributes
NOTHING to the report — the partial results already gathered inside the
failed walk are discarded, not included, although walking the good pod
alone yields one latest-tag and one root-user finding. -/
theorem failed_namespace_partial_results_dropped :
    ((scan_cluster { namespaces := .ok [nsPartial] }).map
       (fun r => (r.latestTagContainers, r.rootContainers)) = .ok ([], []))
    ∧ (_scan_namespace { name := "p", pods := .ok [goodPod] }
        = .ok ([{ ns := "p", pod := "good", container := "web", image := "nginx:latest" }],
               [{ ns := "p", pod := "good", container := "web",
                  reason := "No security context defined (defaults to root)",
                  user_id := none, run_as_non_root := none }]))
    ∧ _scan_namespace nsPartial = .error .unexpected :=
  ⟨rfl, rfl, rfl⟩

/-- Claim C5 as amended: a failing namespace walk is caught and the scan
continues over the remaining namespaces and still returns a report, but
the failed namespace contributes nothing (its partial results are
discarded); only failure of the initial namespace listing aborts the
scan and propagates. -/
theorem failed_namespace_skipped_scan_continues (pre post : List NamespaceData)
    (bad : NamespaceData) (e0 : ScanError) (e1 : ApiError)
    (h : _scan_namespace bad = .error e0) :
    scan_cluster { namespaces := .ok (pre ++ bad :: post) }
      = .ok (buildReport (pre ++ bad :: post))
    ∧ (buildReport (pre ++ bad :: post)).latestTagContainers
        = (buildReport (pre ++ post)).latestTagContainers
    ∧ (buildReport (pre ++ bad :: post)).rootContainers
        = (buildReport (pre ++ post)).rootContainers
    ∧ scan_cluster { namespaces := .error e1 } = .error (.api e1) := by
  have hstep : ∀ acc, scanStep acc bad = acc := by
    intro acc; simp [scanStep, h]
  have hfold : (pre ++ bad :: post).foldl scanStep ([], [])
      = (pre ++ post).foldl scanStep ([], []) := by
    simp [List.foldl_append, List.foldl_cons, hstep]
  refine ⟨rfl, ?_, ?_, rfl⟩ <;> simp [buildReport, hfold]

/-- Witness for the amended claim C5, at the concrete one-namespace
cluster whose walk fails midway. -/
theorem failed_namespace_skipped_scan_continues_witness :
    scan_cluster { namespaces := .ok ([] ++ nsPartial :: []) }
      = .ok (buildReport ([] ++ nsPartial :: []))
    ∧ (buildReport ([] ++ nsPartial :: [])).latestTagContainers
        = (buildReport ([] ++ [])).latestTagContainers
    ∧ (buildReport ([] ++ nsPartial :: [])).rootContainers
        = (buildReport ([] ++ [])).rootContainers
    ∧ scan_cluster { namespaces := .error .permissionDenied }
      = .error (.api .permissionDenied) :=
  failed_namespace_skipped_scan_continues [] [] nsPartial .unexpected .permissionDenied rfl

/-- Claim C6: the privilege-escalation evaluator resolves
`allowPrivilegeEscalation` container-first with pod fallback and emits
exactly one High/L1 violation precisely when the resolved value is
absent or true, and nothing when it is false. -/
theorem privilege_escalation_resolution (ns p c : String)
    (container_spec : ContainerData) (pod_spec : PodSpecData) :
    (resolveAllowPrivilegeEscalation container_spec.security_context pod_spec.security_context
        = some false →
      _check_privilege_escalation ns p c container_spec pod_spec = [])
    ∧ ((resolveAllowPrivilegeEscalation container_spec.security_context pod_spec.security_context
          = none
        ∨ resolveAllowPrivilegeEscalation container_spec.security_context pod_spec.security_context
          = some true) →
      (_check_privilege_escalation ns p c container_spec pod_spec).length = 1
      ∧ ∀ v ∈ _check_privilege_escalation ns p c container_spec pod_spec,
          v.severity = "High" ∧ v.level = "L1") := by
  constructor
  · intro h
    simp [_check_privilege_escalation, h]
  · intro h
    rcases h with h | h <;> simp [_check_privilege_escalation, h]

/-- Witness for claim C6: with neither container- nor pod-level setting,
the evaluator emits exactly one High/L1 violation. -/
theorem privilege_escalation_resolution_witness :
    (_check_privilege_escalation "ns1" "pod1" "app" exContainerNoSC exPodSpecNoSC).length = 1
    ∧ ∀ v ∈ _check_privilege_escalation "ns1" "pod1" "app" exContainerNoSC exPodSpecNoSC,
        v.severity = "High" ∧ v.level = "L1" :=
  (privilege_escalation_resolution "ns1" "pod1" "app" exContainerNoSC exPodSpecNoSC).2
    (Or.inl rfl)

/-- Claim C7: the capabilities-not-dropped evaluator emits the single
Medium/L1 violation when the resolved `drop` list is absent or empty,
the single Low/L2 violation when it is present, non-empty and lacks
`"ALL"`, and nothing when it contains `"ALL"`. -/
theorem capabilities_not_dropped_cases (ns p c : String)
    (container_spec : ContainerData) (pod_spec : PodSpecData) :
    ((resolvedDrop container_spec.security_context pod_spec.security_context = none
      ∨ resolvedDrop container_spec.security_context pod_spec.security_context = some []) →
      _check_capabilities_not_dropped ns p c container_spec pod_spec
        = [capsNotDroppedMediumViolation ns p c])
    ∧ (∀ l, resolvedDrop container_spec.security_context pod_spec.security_context = some l →
        l ≠ [] → "ALL" ∉ l →
        _check_capabilities_not_dropped ns p c container_spec pod_spec
          = [capsNotDroppedLowViolation ns p c])
    ∧ (∀ l, resolvedDrop container_spec.security_context pod_spec.security_context = some l →
        "ALL" ∈ l →
        _check_capabilities_not_dropped ns p c container_spec pod_spec = [])
    ∧ (capsNotDroppedMediumViolation ns p c).severity = "Medium"
    ∧ (capsNotDroppedMediumViolation ns p c).level = "L1"
    ∧ (capsNotDroppedLowViolation ns p c).severity = "Low"
    ∧ (capsNotDroppedLowViolation ns p c).level = "L2" := by
  refine ⟨?_, ?_, ?_, rfl, rfl, rfl, rfl⟩
  · intro h
    rcases hc : resolveCapabilities container_spec.security_context pod_spec.security_context
      with _ | caps
    · simp [_check_capabilities_not_dropped, hc]
    · have h' : caps.drop = none ∨ caps.drop = some [] := by
        simpa [resolvedDrop, hc] using h
      rcases h' with hd | hd <;> simp [_check_capabilities_not_dropped, hc, hd]
  · intro l hl hne hall
    rcases hc : resolveCapabilities container_spec.security_context pod_spec.security_context
      with _ | caps
    · simp [resolvedDrop, hc] at hl
    · have hd : caps.drop = some l := by simpa [resolvedDrop, hc] using hl
      simp [_check_capabilities_not_dropped, hc, hd, hne, hall]
  · intro l hl hall
    rcases hc : resolveCapabilities container_spec.security_context pod_spec.security_context
      with _ | caps
    · simp [resolvedDrop, hc] at hl
    · have hd : caps.drop = some l := by simpa [resolvedDrop, hc] using hl
      have hne : l ≠ [] := by
        rintro rfl
        simp at hall
      simp [_check_capabilities_not_dropped, hc, hd, hne, hall]

/-- Witness for claim C7: a container and pod with no capabilities at
all yield the single Medium/L1 violation. -/
theorem capabilities_not_dropped_cases_witness :
    _check_capabilities_not_dropped "ns1" "pod1" "app" exContainerNoSC exPodSpecNoSC
      = [capsNotDroppedMediumViolation "ns1" "pod1" "app"] :=
  (capabilities_not_dropped_cases "ns1" "pod1" "app" exContainerNoSC exPodSpecNoSC).1
    (Or.inl rfl)

/-- Claim C8: every report a completed scan returns satisfies
`summary.totalIssues` = sum of the five category list lengths (the three
CIS-related collections the scan never populates count zero). -/
theorem report_total_equals_category_sum (cd : ClusterData) (r : ScanResponse)
    (h : scan_cluster cd = .ok r) :
    r.summary.totalIssues
      = r.latestTagContainers.length + r.rootContainers.length
        + r.cisViolations.length + r.networkPolicyViolations.length
        + r.serviceAccountViolations.length := by
  rcases cd with ⟨nsres⟩
  rcases nsres with e | nss
  · simp [scan_cluster] at h
  · simp only [scan_cluster, Except.ok.injEq] at h
    subst h
    simp [buildReport]

/-- Witness for claim C8 at a concrete one-namespace cluster with two
findings. -/
theorem report_total_equals_category_sum_witness :
    (buildReport [{ name := "default", pods := .ok [goodPod] }]).summary.totalIssues
      = (buildReport [{ name := "default", pods := .ok [goodPod] }]).latestTagContainers.length
        + (buildReport [{ name := "default", pods := .ok [goodPod] }]).rootContainers.length
        + (buildReport [{ name := "default", pods := .ok [goodPod] }]).cisViolations.length
        + (buildReport [{ name := "default", pods := .ok [goodPod] }]).networkPolicyViolations.length
        + (buildReport [{ name := "default", pods := .ok [goodPod] }]).serviceAccountViolations.length :=
  report_total_equals_category_sum exOneFindingCluster
    (buildReport [{ name := "default", pods := .ok [goodPod] }]) rfl

/-- Claim C9: a container whose image reference is the empty string is
never flagged by the latest-tag evaluator. -/
theorem empty_image_not_flagged (ns p c : String) :
    _check_latest_tag ns p c "" = none := by
  simp [_check_latest_tag]

/-- Claim C10: whenever the NET_RAW evaluator (5.2.7) produces a
violation, the added-capabilities evaluator (5.2.8) — which resolves
capabilities through the same container-then-pod `resolveCapabilities`
— also produces one for the same container. -/
theorem net_raw_implies_added_capabilities (ns p c : String)
    (container_spec : ContainerData) (pod_spec : PodSpecData)
    (h : _check_net_raw_capability ns p c container_spec pod_spec ≠ []) :
    _check_added_capabilities ns p c container_spec pod_spec ≠ [] := by
  rcases hc : resolveCapabilities container_spec.security_context pod_spec.security_context
    with _ | caps
  · simp [_check_net_raw_capability, hc] at h
  · rcases ha : caps.add with _ | l
    · simp [_check_net_raw_capability, hc, ha] at h
    · by_cases hne : l = []
      · simp [_check_net_raw_capability, hc, ha, hne] at h
      · simp [_check_added_capabilities, hc, ha, hne]

/-- Witness for claim C10: a container adding NET_RAW triggers the
added-capabilities evaluator. -/
theorem net_raw_implies_added_capabilities_witness :
    _check_added_capabilities "ns1" "pod1" "app" exNetRawContainer exPodSpecNoSC ≠ [] :=
  net_raw_implies_added_capabilities "ns1" "pod1" "app" exNetRawContainer exPodSpecNoSC
    (by decide)

end KubeScan
